import Mathlib

set_option linter.unusedVariables false

/-!
Verification of the MINDYARD Layer-1 core: intent classification with keyword
fallback (`app/services/layer1/intent_router.py`), the four response-strategy
nodes (`app/services/layer1/nodes/*.py`), and the user profiler
(`app/services/layer1/user_profiler.py`).

Conventions of the shallow embedding:
* Python float arithmetic is modelled exactly over `ℚ` (the code only adds,
  divides and compares small decimal constants).
* Timestamps are modelled as UTC epoch seconds (`Int`); `datetime.now` is an
  explicit `now` argument, and the three clock reads inside one profile build
  are identified.
* The external LLM client is modelled by an outcome value: no client handle
  obtainable, an exception during `initialize`/generation, or a successful
  generation carrying its content.  A Python exception escaping a modelled
  `try` block is an `Except.error`.
* Python dicts used as counters are association lists in insertion order;
  `Counter.most_common` is a stable sort by descending count.
-/

namespace Mindyard

/-! Section: Python substring containment (`kw in text`) -/

/-- Predicate `isPrefixB pat l`: `pat` is a leading segment of `l`. -/
def isPrefixB : List Char → List Char → Bool
  | [], _ => true
  | _ :: _, [] => false
  | a :: as, b :: bs => a == b && isPrefixB as bs

/-- Predicate `isInfixB pat l`: `pat` occurs as a contiguous segment of `l`. -/
def isInfixB (pat : List Char) : List Char → Bool
  | [] => pat.isEmpty
  | c :: rest => isPrefixB pat (c :: rest) || isInfixB pat rest

/-- Python's `pat in s` on strings. -/
def strContains (s pat : String) : Bool := isInfixB pat.data s.data

/-! Section: intent enumeration -/

/-- Modelled from the spec: `ConversationIntent` is declared in
`app/schemas/conversation.py`, which is not among the provided sources.
Spec §3 fixes the closed enumeration `chat`, `empathy`, `knowledge`,
`deep_dive`, `brainstorm`, `state`, in that order (the migration
`20260211_add_state_to_logintent_enum.py` confirms `state` was appended
last). -/
inductive ConversationIntent
  | chat
  | empathy
  | knowledge
  | deep_dive
  | brainstorm
  | state
deriving DecidableEq, Repr, Fintype

/-- Python's `str` value of each enum member (`.value`). -/
def intentValue : ConversationIntent → String
  | .chat => "chat"
  | .empathy => "empathy"
  | .knowledge => "knowledge"
  | .deep_dive => "deep_dive"
  | .brainstorm => "brainstorm"
  | .state => "state"

/-- Iteration order of `for intent in ConversationIntent` (declaration order). -/
def intentOrder : List ConversationIntent :=
  [.chat, .empathy, .knowledge, .deep_dive, .brainstorm, .state]

/-! Section: keyword fallback classification (`IntentRouter._fallback_classify`) -/

/-- Embeds `_KEYWORD_MAP` from `intent_router.py`; intents without an entry in the
dict have no keywords. -/
def keywordsFor : ConversationIntent → List String
  | .empathy =>
      ["つらい", "しんどい", "疲れた", "嫌だ", "ひどい", "悲しい",
       "不安", "怖い", "寂しい", "イライラ", "ムカつく", "最悪",
       "聞いて", "吐き出し", "愚痴", "ため息"]
  | .knowledge =>
      ["教えて", "知りたい", "とは", "って何", "ですか",
       "違いは", "方法は", "やり方", "調べ", "検索",
       "参考", "文献", "論文", "データ"]
  | .deep_dive =>
      ["どうすれば", "解決", "改善", "対策", "問題",
       "原因", "なぜ", "課題", "困って", "うまくいかない",
       "分析", "検討", "整理したい", "深掘り"]
  | .brainstorm =>
      ["アイデア", "案", "ひらめき", "思いつき", "仮説",
       "壁打ち", "ブレスト", "発想", "もし", "可能性",
       "新しい", "試したい", "どうだろう", "妄想"]
  | _ => []

/-- The score accumulated for one intent: +1 per keyword of its list that
occurs in the input text. -/
def score (i : ConversationIntent) (text : String) : Nat :=
  (keywordsFor i).countP (fun kw => strContains text kw)

/-- The `scores` dict, in its insertion (enum) order. -/
def scoresList (text : String) : List (ConversationIntent × Nat) :=
  intentOrder.map (fun i => (i, score i text))

/-- Python `max(scores, key=scores.get)`: keeps the current best and replaces
it only on a strictly greater score, so the first key attaining the maximum
wins. -/
def argmaxAux (best : ConversationIntent × Nat) :
    List (ConversationIntent × Nat) → ConversationIntent × Nat
  | [] => best
  | p :: rest => argmaxAux (if p.2 > best.2 then p else best) rest

/-- The ephemeral classification result (`{"intent": ..., "confidence": ...}`). -/
structure ClassificationResult where
  intent : ConversationIntent
  confidence : ℚ
deriving DecidableEq, Repr

/-- Embeds `IntentRouter._fallback_classify`. -/
def fallbackClassify (text : String) : ClassificationResult :=
  match scoresList text with
  | [] => ⟨.chat, 3/10⟩  -- unreachable: `intentOrder` is nonempty
  | p :: rest =>
    let m := argmaxAux p rest
    if m.2 = 0 then
      ⟨.chat, 3/10⟩
    else
      let total : ℚ := ((scoresList text).map (fun q => (q.2 : ℚ))).sum
      let confidence : ℚ := if 0 < total then (m.2 : ℚ) / total else 3/10
      ⟨m.1, min confidence (7/10)⟩

/-! Section: LLM-path parsing (`IntentRouter._parse_result` / `classify`) -/

/-- JSON values as returned by `generate_json`.  Arrays and objects are kept
opaque: the code never looks inside them, it only fails on them. -/
inductive JsonVal
  | str (s : String)
  | num (q : ℚ)
  | jbool (b : Bool)
  | null
  | arr
  | obj
deriving DecidableEq, Repr

abbrev JsonMap := List (String × JsonVal)

/-- Python `str.lower()` (the keys compared against are ASCII). -/
def pyLower (s : String) : String := ⟨s.data.map Char.toLower⟩

/-- The `intent_map.get(intent_str, ConversationIntent.CHAT)` lookup. -/
def intentOfString (s : String) : ConversationIntent :=
  if s = "chat" then .chat
  else if s = "empathy" then .empathy
  else if s = "knowledge" then .knowledge
  else if s = "deep_dive" then .deep_dive
  else if s = "brainstorm" then .brainstorm
  else .chat

/-- Embeds `max(0.0, min(1.0, float(confidence)))`. -/
def clamp01 (q : ℚ) : ℚ := max 0 (min 1 q)

/-- The `confidence` handling of `_parse_result`: default `0.5` when absent,
`0.5` when not `isinstance(confidence, (int, float))` — a Python `bool` IS an
instance of `int`, so booleans pass the check and are coerced by `float` —
otherwise clamped into `[0, 1]`. -/
def parseConfidence (m : JsonMap) : ℚ :=
  match m.lookup "confidence" with
  | none => 1/2
  | some (.num q) => clamp01 q
  | some (.jbool b) => clamp01 (if b then 1 else 0)
  | some _ => 1/2

/-- Embeds `IntentRouter._parse_result`.  Here `result.get("intent", "chat").lower()`
raises `AttributeError` when the stored value is present but not a string;
that raise is the `Except.error` case. -/
def parseResult (m : JsonMap) : Except Unit ClassificationResult :=
  match m.lookup "intent" with
  | some (.str s) => .ok ⟨intentOfString (pyLower s), parseConfidence m⟩
  | none => .ok ⟨intentOfString (pyLower "chat"), parseConfidence m⟩
  | some _ => .error ()

/-- Outcome of the FAST-tier client seen by `IntentRouter.classify`:
`unavailable` models `_get_provider()` returning `None`, `failure` an
exception from `initialize`/`generate_json`, `success m` a returned JSON
map `m`. -/
inductive LLMJsonAttempt
  | unavailable
  | failure
  | success (m : JsonMap)

/-- Embeds `IntentRouter.classify`: the whole try-block — generation AND
`_parse_result` — is covered by the `except` that degrades to the keyword
fallback. -/
def classify (text : String) (llm : LLMJsonAttempt) : ClassificationResult :=
  match llm with
  | .unavailable => fallbackClassify text
  | .failure => fallbackClassify text
  | .success m =>
    match parseResult m with
    | .ok r => r
    | .error _ => fallbackClassify text

/-! Section: response-strategy nodes (`app/services/layer1/nodes/*.py`) -/

/-- Outcome of a node's client resolution and generation attempt:
`unavailable` models `_get_provider()` returning `None`, `failure` an
exception raised by `initialize`/`generate_text`, `success c` a generation
returning content `c`. -/
inductive GenAttempt
  | unavailable
  | failure
  | success (content : String)

def chatFallbackReply : String := "なるほど！いいですね。"

/-- Embeds `run_chat_node` (`chat_node.py`): response value of the returned dict. -/
def run_chat_node (input_text : String) (llm : GenAttempt) : String :=
  match llm with
  | .unavailable => chatFallbackReply
  | .failure => chatFallbackReply
  | .success c => c

def empathyFallbackReply : String :=
  "お気持ち、受け止めました。話してくれてありがとうございます。"

/-- Embeds `run_empathy_node` (`empathy_node.py`). -/
def run_empathy_node (input_text : String) (llm : GenAttempt) : String :=
  match llm with
  | .unavailable => empathyFallbackReply
  | .failure => empathyFallbackReply
  | .success c => c

def deepDiveFallbackReply : String :=
  "課題を整理してみましょう。もう少し詳しく教えていただけますか？"

/-- Embeds `run_deep_dive_node` (`deep_dive_node.py`). -/
def run_deep_dive_node (input_text : String) (llm : GenAttempt) : String :=
  match llm with
  | .unavailable => deepDiveFallbackReply
  | .failure => deepDiveFallbackReply
  | .success c => c

/-- Canned reply of `run_deep_research_node` when no DEEP-tier client is
obtainable. -/
def deepResearchUnavailableReply : String :=
  "申し訳ありません。Deep Research サービスが現在利用できません。\n通常の回答をご参照ください。"

/-- Canned reply of `run_deep_research_node` when the try-block raises. -/
def deepResearchErrorReply : String :=
  "Deep Research の実行中にエラーが発生しました。\n通常の回答をご参照ください。再度お試しいただくこともできます。"

/-- The research query sent to the client: reframed when a prior response is
present (Python truthiness: the empty string counts as absent). -/
def researchQuery (input_text previous_response : String) : String :=
  if previous_response = "" then input_text
  else
    "元の質問: " ++ input_text ++ "\n\n" ++
    "初回の回答（これを深掘りしてください）:\n" ++ previous_response

/-- Embeds `run_deep_research_node` (`deep_research_node.py`): a successful reply is
prefixed with the fixed marker label. -/
def run_deep_research_node (input_text previous_response : String)
    (llm : GenAttempt) : String :=
  match llm with
  | .unavailable => deepResearchUnavailableReply
  | .failure => deepResearchErrorReply
  | .success c => "🔬 **Deep Research 結果**\n\n" ++ c

/-! Section: user profiler (`app/services/layer1/user_profiler.py`) -/

/-- Embeds `_RECENT_DAYS`. -/
def recentDays : Nat := 14

/-- Embeds `_TREND_DAYS`. -/
def trendDays : Nat := 7

def secondsPerDay : Int := 86400

/-- A fetched `RawLog` row, reduced to the fields the profiler reads.
`created_at` is UTC epoch seconds. -/
structure RawLog where
  content : Option String
  created_at : Int
  emotions : Option (List String)
  topics : Option (List String)
  intent : Option ConversationIntent
deriving DecidableEq, Repr

/-- A Python dict used as a `Counter`/`defaultdict(int)`: an association list
in key-insertion order. -/
def bump {α : Type} [DecidableEq α] (c : List (α × Nat)) (k : α) :
    List (α × Nat) :=
  match c with
  | [] => [(k, 1)]
  | (k', v) :: rest =>
    if k' = k then (k', v + 1) :: rest else (k', v) :: bump rest k

abbrev Counter := List (String × Nat)

/-- Lookup `counter[e]` (reads as 0 when absent). -/
def Counter.get (c : Counter) (e : String) : Nat := (c.lookup e).getD 0

/-- Embeds `sum(counter.values())`. -/
def Counter.total (c : Counter) : Nat := (c.map Prod.snd).sum

/-- Insert into a list already sorted by descending count, after entries with
a strictly greater count (so an earlier-inserted key beats a later equal
count, as Python's stable `most_common` sort does). -/
def insertByCountDesc {α : Type} (p : α × Nat) :
    List (α × Nat) → List (α × Nat)
  | [] => [p]
  | q :: rest =>
    if q.2 > p.2 then q :: insertByCountDesc p rest else p :: q :: rest

/-- Stable sort by descending count: the order `Counter.most_common` yields. -/
def sortByCountDesc {α : Type} (l : List (α × Nat)) : List (α × Nat) :=
  l.foldr insertByCountDesc []

/-- Embeds `counter.most_common(n)`. -/
def Counter.mostCommon (c : Counter) (n : Nat) : List (String × Nat) :=
  (sortByCountDesc c).take n

/-- The emotion sets of `_detect_emotion_trend`. -/
def negativeEmotions : List String := ["frustrated", "angry", "anxious", "confused"]

def positiveEmotions : List String := ["achieved", "excited", "relieved"]

def fatigueEmotions : List String := ["frustrated", "anxious"]

/-- Embeds `sum(counter[e] for e in s)`. -/
def setCount (c : Counter) (s : List String) : Nat :=
  (s.map (Counter.get c)).sum

/-- Embeds `sum(counter.values()) or 1`: a zero bucket total is replaced by 1. -/
def bucketTotal (c : Counter) : ℚ :=
  if Counter.total c = 0 then 1 else (Counter.total c : ℚ)

/-- Embeds `UserProfiler._detect_emotion_trend`. -/
def detectEmotionTrend (recent older : Counter) : String :=
  let recentTotal := bucketTotal recent
  let olderTotal := bucketTotal older
  let recentNegRatio := (setCount recent negativeEmotions : ℚ) / recentTotal
  let olderNegRatio := (setCount older negativeEmotions : ℚ) / olderTotal
  let recentFatigue := (setCount recent fatigueEmotions : ℚ) / recentTotal
  let olderFatigue := (setCount older fatigueEmotions : ℚ) / olderTotal
  if recentFatigue > olderFatigue + 2/10 then "fatigue_increasing"
  else if recentNegRatio > olderNegRatio + 15/100 then "more_negative"
  else if recentNegRatio < olderNegRatio - 15/100 then "more_positive"
  else "stable"

/-- Spec-side definition (§4.3 step 2 wording): the ratio of an emotion set
within a bucket, `count-in-set / total-in-bucket`, a bucket total of 0 being
treated as 1. -/
def specSetRatio (c : Counter) (s : List String) : ℚ :=
  (setCount c s : ℚ) / bucketTotal c

/-- Spec-side definition of the trend label, written from the claim's words:
priority order `fatigue_increasing` (recent fatigue ratio exceeds older by
more than 0.20, strict), else `more_negative` (strict +0.15), else
`more_positive` (strict −0.15), else `stable`.  To be compared with
`detectEmotionTrend`, the embedding of the code. -/
def specTrendLabel (recent older : Counter) : String :=
  if specSetRatio recent fatigueEmotions >
      specSetRatio older fatigueEmotions + 1/5 then "fatigue_increasing"
  else if specSetRatio recent negativeEmotions >
      specSetRatio older negativeEmotions + 3/20 then "more_negative"
  else if specSetRatio recent negativeEmotions <
      specSetRatio older negativeEmotions - 3/20 then "more_positive"
  else "stable"

/-- The `emotion_trends` dict produced by `_aggregate_emotions`. -/
structure EmotionTrends where
  top_emotions : List (String × Nat)
  total_entries : Nat
  recent_trend : String
deriving DecidableEq, Repr

/-- The single pass of `_aggregate_emotions` filling `counter`,
`recent_counter` and `older_counter`. -/
def emotionCounters (now : Int) (logs : List RawLog) :
    Counter × Counter × Counter :=
  logs.foldl
    (fun acc log =>
      (log.emotions.getD []).foldl
        (fun acc e =>
          let c := bump acc.1 e
          if log.created_at ≥ now - (trendDays : Int) * secondsPerDay then
            (c, bump acc.2.1 e, acc.2.2)
          else
            (c, acc.2.1, bump acc.2.2 e))
        acc)
    ([], [], [])

/-- Embeds `UserProfiler._aggregate_emotions`. -/
def aggregateEmotions (now : Int) (logs : List RawLog) : EmotionTrends :=
  let cs := emotionCounters now logs
  { top_emotions := Counter.mostCommon cs.1 5
    total_entries := Counter.total cs.1
    recent_trend := detectEmotionTrend cs.2.1 cs.2.2 }

/-- The per-topic value of `_aggregate_topic_emotions`' result dict. -/
structure TopicInfo where
  dominant_emotion : String
  count : Nat
  distribution : Counter
deriving DecidableEq, Repr

/-- The `defaultdict(Counter)` keyed by topic, in insertion order. -/
def bumpTopic (tc : List (String × Counter)) (topic emotion : String) :
    List (String × Counter) :=
  match tc with
  | [] => [(topic, bump [] emotion)]
  | (t, c) :: rest =>
    if t = topic then (t, bump c emotion) :: rest
    else (t, c) :: bumpTopic rest topic emotion

/-- The accumulation loop of `_aggregate_topic_emotions`. -/
def topicEmotionCounters (logs : List RawLog) : List (String × Counter) :=
  logs.foldl
    (fun tc log =>
      (log.topics.getD []).foldl
        (fun tc topic =>
          (log.emotions.getD []).foldl
            (fun tc emotion => bumpTopic tc topic emotion)
            tc)
        tc)
    []

/-- Embeds `UserProfiler._aggregate_topic_emotions`: topics with fewer than 2 total
emotion occurrences are skipped; each kept topic reports
`most_common(1)[0]` as dominant. -/
def aggregateTopicEmotions (logs : List RawLog) : List (String × TopicInfo) :=
  (topicEmotionCounters logs).filterMap
    (fun p =>
      if Counter.total p.2 < 2 then none
      else
        -- `most_common(1)[0]`; the `none` case of `head?` is unreachable
        -- because a total ≥ 2 forces a nonempty counter
        ((sortByCountDesc p.2).head?).map
          (fun d => (p.1, ⟨d.1, Counter.total p.2, p.2⟩)))

/-- The `posting_pattern` dict of `_aggregate_posting_pattern` for a nonempty
log list (the empty list yields the empty dict, modelled as `none` upstream). -/
structure PostingPattern where
  avg_per_day : ℚ
  peak_hours : List Int
  frequency_change : String
  total_logs : Nat
deriving DecidableEq, Repr

/-- Python `round(x, 1)` modelled as rounding half away from zero to one decimal
place (Python rounds half to even; no claim touches an exact half). -/
def round1 (q : ℚ) : ℚ := (round (q * 10) : ℚ) / 10

/-- Embeds `UserProfiler._aggregate_posting_pattern`.  Calendar dates and hours are
derived from epoch seconds: UTC day index `⌊t / 86400⌋` and hour
`⌊t / 3600⌋ mod 24`. -/
def aggregatePostingPattern (now : Int) (logs : List RawLog) :
    Option PostingPattern :=
  if logs.isEmpty then none
  else
    let daily := logs.foldl
      (fun d log => bump d (log.created_at.fdiv secondsPerDay))
      ([] : List (Int × Nat))
    let hours := logs.foldl
      (fun h log => bump h ((log.created_at.fdiv 3600) % 24))
      ([] : List (Int × Nat))
    let totalDays := max daily.length 1
    let avgPerDay := round1 ((logs.length : ℚ) / (totalDays : ℚ))
    let peakHours := ((sortByCountDesc hours).take 3).map Prod.fst
    let trendCutoff := now - (trendDays : Int) * secondsPerDay
    let recentCount := logs.countP (fun log => log.created_at ≥ trendCutoff)
    let olderCount := logs.length - recentCount
    let recentAvg : ℚ := (recentCount : ℚ) / (trendDays : ℚ)
    let olderDays := max (recentDays - trendDays) 1
    let olderAvg : ℚ := (olderCount : ℚ) / (olderDays : ℚ)
    let freq :=
      if 0 < olderAvg ∧ recentAvg < olderAvg * (5/10) then "decreasing"
      else if 0 < olderAvg ∧ recentAvg > olderAvg * (15/10) then "increasing"
      else "stable"
    some ⟨avgPerDay, peakHours, freq, logs.length⟩

/-- One entry of the `signals` list. -/
structure Signal where
  type : String
  severity : String
  description : String
deriving DecidableEq, Repr

/-- The fixed fatigue-keyword tuple of `_detect_signals`. -/
def fatigueKeywords : List String :=
  ["疲れ", "だるい", "眠い", "しんどい", "つらい", "きつい"]

/-- Entries whose text (`log.content or ""`) contains a fatigue keyword. -/
def fatigueCount (logs : List RawLog) : Nat :=
  logs.countP
    (fun log => fatigueKeywords.any (fun kw => strContains (log.content.getD "") kw))

/-- Among the 20 most recent entries, those whose intent value is `state`
(`log.intent and log.intent.value == "state"`). -/
def stateCount (logs : List RawLog) : Nat :=
  (logs.take 20).countP (fun log => log.intent.map intentValue = some "state")

/-- Embeds `UserProfiler._detect_signals`.  The two dict reads it performs are the
`recent_trend` value of `emotion_trends` and the `frequency_change` value of
`posting_pattern`; they are passed as the `Option String` results of those
`.get` calls. -/
def detectSignals (logs : List RawLog) (recent_trend : Option String)
    (frequency_change : Option String) : List Signal :=
  (if 5 ≤ fatigueCount logs then
    [⟨"fatigue_repetition", "warning",
      "疲労に関する投稿が" ++ toString (fatigueCount logs) ++ "回（" ++
      toString recentDays ++ "日間）。慢性的な疲労の可能性"⟩]
   else []) ++
  (if recent_trend = some "fatigue_increasing" then
    [⟨"stress_increasing", "warning", "直近1週間でストレス・焦りの訴えが増加している"⟩]
   else if recent_trend = some "more_negative" then
    [⟨"negativity_increasing", "info", "直近1週間でネガティブな感情が増加傾向"⟩]
   else []) ++
  (if frequency_change = some "decreasing" then
    [⟨"posting_decrease", "info", "投稿頻度が減少傾向。無気力や回避の兆候の可能性"⟩]
   else []) ++
  (if 10 ≤ stateCount logs then
    [⟨"state_dominant", "info", "状態記録が多い。深い思考よりも日々の状態共有がメイン"⟩]
   else [])

/-- The profile document.  Python's empty dicts `{}` for the aggregate fields
of the empty profile are modelled as `none`. -/
structure Profile where
  updated_at : Int
  log_count : Nat
  period_days : Nat
  emotion_trends : Option EmotionTrends
  topic_emotion_map : List (String × TopicInfo)
  posting_pattern : Option PostingPattern
  signals : List Signal
deriving DecidableEq, Repr

/-- Embeds `UserProfiler._empty_profile`. -/
def emptyProfile (now : Int) : Profile :=
  { updated_at := now
    log_count := 0
    period_days := recentDays
    emotion_trends := none
    topic_emotion_map := []
    posting_pattern := none
    signals := [] }

/-- Embeds `UserProfiler.build_profile`, taking the fetched rows (≤ 200 analyzed
entries of the 14-day window, newest first — the query itself is external
persistence) as input. -/
def buildProfile (now : Int) (logs : List RawLog) : Profile :=
  if logs.isEmpty then emptyProfile now
  else
    let et := aggregateEmotions now logs
    let tem := aggregateTopicEmotions logs
    let pp := aggregatePostingPattern now logs
    let sigs := detectSignals logs (some et.recent_trend)
      (pp.map PostingPattern.frequency_change)
    { updated_at := now
      log_count := logs.length
      period_days := recentDays
      emotion_trends := some et
      topic_emotion_map := tem
      posting_pattern := pp
      signals := sigs }

/-- The user row, reduced to the field `build_and_save` writes. -/
structure User where
  email : String
  profile_data : Option Profile
deriving DecidableEq, Repr

/-- Embeds `UserProfiler.build_and_save`: builds, then — whenever the user row is
found — overwrites `profile_data` and commits.  Returns the profile, the
stored user row after the call, and whether a commit (write) happened. -/
def buildAndSave (now : Int) (logs : List RawLog) (user : Option User) :
    Profile × Option User × Bool :=
  let profile := buildProfile now logs
  match user with
  | some u => (profile, some { u with profile_data := some profile }, true)
  | none => (profile, none, false)

/-! Section: theorems -/

/-- C1 (counterexample): the Deep Research strategy's canned reply after a
caught generation exception is NOT the same string as its client-unavailable
canned reply, refuting the claim that every strategy returns exactly the same
fallback on both paths. -/
theorem deep_research_error_reply_differs :
    run_deep_research_node "q" "" GenAttempt.failure ≠
      run_deep_research_node "q" "" GenAttempt.unavailable := by
  decide

/-- C1 (amended): for every input, the Chat, Empathy and DeepDive strategies
return on a caught initialization/generation exception exactly the canned
reply of the client-unavailable path; the DeepResearch strategy also catches
the exception (all four are total functions, so no exception propagates) but
returns a distinct fixed canned error reply, different from its
client-unavailable reply. -/
theorem strategy_failure_is_canned (input prev : String) :
    run_chat_node input .failure = run_chat_node input .unavailable ∧
    run_empathy_node input .failure = run_empathy_node input .unavailable ∧
    run_deep_dive_node input .failure = run_deep_dive_node input .unavailable ∧
    run_deep_research_node input prev .failure = deepResearchErrorReply ∧
    run_deep_research_node input prev .unavailable = deepResearchUnavailableReply ∧
    deepResearchErrorReply ≠ deepResearchUnavailableReply :=
  ⟨rfl, rfl, rfl, rfl, rfl, by decide⟩

/-- C2 (counterexample): with zero in-window analyzed entries, invoking the
build through `build_and_save` for an existing user DOES perform a profile
write — it commits the canonical empty profile into `profile_data` — refuting
the claim that no profile write is performed in that case. -/
theorem build_and_save_empty_still_writes :
    (buildAndSave 0 [] (some ⟨"u@example.com", none⟩)).2.2 = true ∧
    (buildAndSave 0 [] (some ⟨"u@example.com", none⟩)).2.1 =
      some ⟨"u@example.com", some (emptyProfile 0)⟩ :=
  ⟨rfl, rfl⟩

/-- C2 (amended): for every user with zero analyzed entries in the 14-day
window, `build_profile` returns exactly the canonical empty profile
(`log_count = 0`, `period_days = 14`, emotion trends, topic-emotion map,
posting pattern and signals all empty) and itself performs no write; invoked
through `build_and_save`, no write happens only when the user record is
absent — when the user record exists, the empty profile IS written. -/
theorem build_profile_empty_canonical (now : Int) (u : User) :
    buildProfile now [] = emptyProfile now ∧
    (buildProfile now []).log_count = 0 ∧
    (buildProfile now []).period_days = 14 ∧
    (buildProfile now []).emotion_trends = none ∧
    (buildProfile now []).topic_emotion_map = [] ∧
    (buildProfile now []).posting_pattern = none ∧
    (buildProfile now []).signals = [] ∧
    buildAndSave now [] none = (emptyProfile now, none, false) ∧
    buildAndSave now [] (some u) =
      (emptyProfile now,
       some { u with profile_data := some (emptyProfile now) }, true) :=
  ⟨rfl, rfl, rfl, rfl, rfl, rfl, rfl, rfl, rfl⟩

/-- C3 (counterexample): a map whose `intent` value is present but not a
string (here JSON `null`) is an "unusable" intent value, yet `classify` does
not yield intent `chat`: `.lower()` raises inside `_parse_result`, the
exception is caught by `classify`, and the keyword fallback runs — on the
input `"つらい"` it returns `empathy`, refuting the claim. -/
theorem classify_null_intent_not_chat :
    (classify "つらい" (.success [("intent", JsonVal.null)])).intent =
      ConversationIntent.empathy ∧
    (classify "つらい" (.success [("intent", JsonVal.null)])).intent ≠
      ConversationIntent.chat := by
  constructor <;> decide

/-- C3 (amended): `classify` on the LLM path never raises; a missing
`intent` key or an unknown intent STRING yields intent `chat`; a non-string
`intent` value makes the parse raise internally and `classify` degrades to
the keyword fallback (whose result need not be `chat`); a missing or
non-numeric `confidence` yields 0.5 (a Python `bool` counts as numeric), and
a numeric confidence is clamped into `[0, 1]`. -/
theorem classify_parse_contract (m : JsonMap) (text : String) :
    (m.lookup "intent" = none →
      classify text (.success m) = ⟨.chat, parseConfidence m⟩) ∧
    (∀ s, m.lookup "intent" = some (.str s) →
      pyLower s ∉ ["chat", "empathy", "knowledge", "deep_dive", "brainstorm"] →
      classify text (.success m) = ⟨.chat, parseConfidence m⟩) ∧
    (∀ v, m.lookup "intent" = some v → (∀ s, v ≠ .str s) →
      classify text (.success m) = fallbackClassify text) ∧
    (m.lookup "confidence" = none → parseConfidence m = 1/2) ∧
    (∀ s, m.lookup "confidence" = some (.str s) → parseConfidence m = 1/2) ∧
    (m.lookup "confidence" = some .null → parseConfidence m = 1/2) ∧
    (∀ q, m.lookup "confidence" = some (.num q) →
      parseConfidence m = clamp01 q ∧
      0 ≤ parseConfidence m ∧ parseConfidence m ≤ 1) := by
  refine ⟨?_, ?_, ?_, ?_, ?_, ?_, ?_⟩
  · intro h
    have hch : intentOfString (pyLower "chat") = ConversationIntent.chat := by
      decide
    simp [classify, parseResult, h, hch]
  · intro s hs hnot
    simp only [List.mem_cons, List.not_mem_nil, or_false, not_or] at hnot
    simp only [classify, parseResult, hs]
    have : intentOfString (pyLower s) = .chat := by
      simp only [intentOfString]
      split_ifs with h1 h2 h3 h4 h5 <;> first | rfl | simp_all
    rw [this]
  · intro v hv hns
    cases v with
    | str s => exact absurd rfl (hns s)
    | num q => simp [classify, parseResult, hv]
    | jbool b => simp [classify, parseResult, hv]
    | null => simp [classify, parseResult, hv]
    | arr => simp [classify, parseResult, hv]
    | obj => simp [classify, parseResult, hv]
  · intro h; simp [parseConfidence, h]
  · intro s hs; simp [parseConfidence, hs]
  · intro h; simp [parseConfidence, h]
  · intro q hq
    refine ⟨by simp [parseConfidence, hq], ?_, ?_⟩
    · simp only [parseConfidence, hq, clamp01]
      exact le_max_left 0 _
    · simp only [parseConfidence, hq, clamp01]
      exact max_le (by norm_num) (min_le_left 1 q)

/-- Witness for C3's amended theorem: a present but unknown intent string
yields intent `chat`. -/
theorem classify_parse_contract_witness :
    (pyLower "Unknown" ∉
      ["chat", "empathy", "knowledge", "deep_dive", "brainstorm"]) ∧
    classify "x" (.success [("intent", JsonVal.str "Unknown")]) =
      ⟨.chat, parseConfidence [("intent", JsonVal.str "Unknown")]⟩ :=
  ⟨by decide,
   (classify_parse_contract [("intent", JsonVal.str "Unknown")] "x").2.1
     "Unknown" (by decide) (by decide)⟩

/-- C4 (confirmed): if no keyword of any category's keyword list occurs as a
substring of the input text, the keyword fallback classifies as `chat` with
confidence exactly 0.3. -/
theorem fallback_no_keyword_chat (text : String)
    (h : ∀ i : ConversationIntent, ∀ kw ∈ keywordsFor i,
      strContains text kw = false) :
    fallbackClassify text = ⟨.chat, 3/10⟩ := by
  have hs : ∀ i, score i text = 0 := by
    intro i
    exact List.countP_eq_zero.mpr (fun kw hkw => by simp [h i kw hkw])
  simp [fallbackClassify, scoresList, intentOrder, argmaxAux, hs]

/-- Witness for C4: a concrete input containing no keyword of any category. -/
theorem fallback_no_keyword_chat_witness :
    (∀ i : ConversationIntent, ∀ kw ∈ keywordsFor i,
      strContains "こんにちは" kw = false) ∧
    fallbackClassify "こんにちは" = ⟨.chat, 3/10⟩ :=
  ⟨by decide, fallback_no_keyword_chat "こんにちは" (by decide)⟩

/-- C5 (confirmed): if exactly one category's keyword list matches the input
(its score is positive) and every other category scores zero, the keyword
fallback returns that category, and since the winning score is then the whole
total, the confidence `winningScore / totalScore` capped at 0.7 is exactly
0.7. -/
theorem fallback_single_category (text : String) (c : ConversationIntent)
    (hc : 0 < score c text)
    (hother : ∀ i, i ≠ c → score i text = 0) :
    fallbackClassify text = ⟨c, 7/10⟩ := by
  have hchat : score .chat text = 0 := by simp [score, keywordsFor]
  have hstate : score .state text = 0 := by simp [score, keywordsFor]
  have hne : score c text ≠ 0 := Nat.pos_iff_ne_zero.mp hc
  have hcast : (0 : ℚ) < (score c text : ℚ) := by exact_mod_cast hc
  have hdiv : (score c text : ℚ) / (score c text : ℚ) = 1 :=
    div_self (ne_of_gt hcast)
  have hmin : min (1 : ℚ) (7/10) = 7/10 := by norm_num
  cases c with
  | chat => exact absurd hc (by simp [hchat])
  | state => exact absurd hc (by simp [hstate])
  | empathy =>
    have h2 := hother .knowledge (by simp)
    have h3 := hother .deep_dive (by simp)
    have h4 := hother .brainstorm (by simp)
    simp [fallbackClassify, scoresList, intentOrder, argmaxAux,
      hchat, hstate, h2, h3, h4, hc, hne, hcast, hdiv, hmin]
  | knowledge =>
    have h1 := hother .empathy (by simp)
    have h3 := hother .deep_dive (by simp)
    have h4 := hother .brainstorm (by simp)
    simp [fallbackClassify, scoresList, intentOrder, argmaxAux,
      hchat, hstate, h1, h3, h4, hc, hne, hcast, hdiv, hmin]
  | deep_dive =>
    have h1 := hother .empathy (by simp)
    have h2 := hother .knowledge (by simp)
    have h4 := hother .brainstorm (by simp)
    simp [fallbackClassify, scoresList, intentOrder, argmaxAux,
      hchat, hstate, h1, h2, h4, hc, hne, hcast, hdiv, hmin]
  | brainstorm =>
    have h1 := hother .empathy (by simp)
    have h2 := hother .knowledge (by simp)
    have h3 := hother .deep_dive (by simp)
    simp [fallbackClassify, scoresList, intentOrder, argmaxAux,
      hchat, hstate, h1, h2, h3, hc, hne, hcast, hdiv, hmin]

/-- Witness for C5: `"つらい"` matches one empathy keyword and nothing else. -/
theorem fallback_single_category_witness :
    0 < score ConversationIntent.empathy "つらい" ∧
    (∀ i, i ≠ ConversationIntent.empathy → score i "つらい" = 0) ∧
    fallbackClassify "つらい" = ⟨ConversationIntent.empathy, 7/10⟩ :=
  ⟨by decide, by decide,
   fallback_single_category "つらい" .empathy (by decide) (by decide)⟩

/-- C6 (confirmed): for every pair of recent/older emotion buckets, the
code's trend label coincides with the label the spec's words define (ratios
with a zero bucket total treated as 1, priority order `fatigue_increasing`
> +0.20 strict, `more_negative` > +0.15 strict, `more_positive` < −0.15
strict, else `stable`); in particular a fatigue-ratio difference of exactly
0.20 does not yield `fatigue_increasing`. -/
theorem trend_label_matches_spec (recent older : Counter) :
    detectEmotionTrend recent older = specTrendLabel recent older ∧
    (specSetRatio recent fatigueEmotions =
        specSetRatio older fatigueEmotions + 1/5 →
      detectEmotionTrend recent older ≠ "fatigue_increasing") := by
  have h2 : (2 : ℚ)/10 = 1/5 := by norm_num
  have h15 : (15 : ℚ)/100 = 3/20 := by norm_num
  constructor
  · simp only [detectEmotionTrend, specTrendLabel, specSetRatio, h2, h15]
  · intro h
    simp only [specSetRatio] at h
    simp only [detectEmotionTrend, h2, h, gt_iff_lt, lt_irrefl, if_false]
    split_ifs <;> decide

/-- Witness for C6's boundary conjunct: recent bucket `frustrated:1, calm:4`
(fatigue ratio 1/5) against an empty older bucket (total treated as 1,
fatigue ratio 0) differ by exactly 0.20, and the label is not
`fatigue_increasing`. -/
theorem trend_label_matches_spec_witness :
    specSetRatio [("frustrated", 1), ("calm", 4)] fatigueEmotions =
      specSetRatio [] fatigueEmotions + 1/5 ∧
    detectEmotionTrend [("frustrated", 1), ("calm", 4)] [] ≠
      "fatigue_increasing" :=
  ⟨by
    have e1 : setCount [("frustrated", 1), ("calm", 4)] fatigueEmotions = 1 := by
      decide
    have e2 : Counter.total [("frustrated", 1), ("calm", 4)] = 5 := by decide
    have e3 : setCount [] fatigueEmotions = 0 := by decide
    have e4 : Counter.total ([] : Counter) = 0 := by decide
    norm_num [specSetRatio, bucketTotal, e1, e2, e3, e4],
   (trend_label_matches_spec [("frustrated", 1), ("calm", 4)] []).2
     (by
      have e1 : setCount [("frustrated", 1), ("calm", 4)] fatigueEmotions = 1 := by
        decide
      have e2 : Counter.total [("frustrated", 1), ("calm", 4)] = 5 := by decide
      have e3 : setCount [] fatigueEmotions = 0 := by decide
      have e4 : Counter.total ([] : Counter) = 0 := by decide
      norm_num [specSetRatio, bucketTotal, e1, e2, e3, e4])⟩

/-- Membership is preserved by `insertByCountDesc`. -/
theorem mem_insertByCountDesc {α : Type} (p q : α × Nat)
    (l : List (α × Nat)) :
    q ∈ insertByCountDesc p l ↔ q = p ∨ q ∈ l := by
  induction l with
  | nil => simp [insertByCountDesc]
  | cons r rest ih =>
    simp only [insertByCountDesc]
    split_ifs with h
    · simp only [List.mem_cons, ih]
      try tauto
    · simp only [List.mem_cons]
      try tauto

/-- Sorting with `sortByCountDesc` is a permutation as far as membership goes. -/
theorem mem_sortByCountDesc {α : Type} (q : α × Nat) (l : List (α × Nat)) :
    q ∈ sortByCountDesc l ↔ q ∈ l := by
  induction l with
  | nil => simp [sortByCountDesc]
  | cons r rest ih =>
    simp only [sortByCountDesc, List.foldr_cons] at *
    rw [mem_insertByCountDesc, ih, List.mem_cons]

/-- Insertion with `insertByCountDesc` preserves sortedness by descending count. -/
theorem sorted_insertByCountDesc {α : Type} (p : α × Nat)
    (l : List (α × Nat))
    (h : l.Sorted (fun a b => b.2 ≤ a.2)) :
    (insertByCountDesc p l).Sorted (fun a b => b.2 ≤ a.2) := by
  induction l with
  | nil => simp [insertByCountDesc]
  | cons q rest ih =>
    rw [List.sorted_cons] at h
    simp only [insertByCountDesc]
    split_ifs with hq
    · rw [List.sorted_cons]
      refine ⟨?_, ih h.2⟩
      intro b hb
      rw [mem_insertByCountDesc] at hb
      rcases hb with rfl | hb
      · omega
      · exact h.1 b hb
    · rw [List.sorted_cons]
      refine ⟨?_, by rw [List.sorted_cons]; exact h⟩
      intro b hb
      rcases List.mem_cons.mp hb with rfl | hb
      · omega
      · have := h.1 b hb
        omega

/-- The output of `sortByCountDesc` is sorted by descending count. -/
theorem sorted_sortByCountDesc {α : Type} (l : List (α × Nat)) :
    (sortByCountDesc l).Sorted (fun a b => b.2 ≤ a.2) := by
  induction l with
  | nil => simp [sortByCountDesc]
  | cons q rest ih => exact sorted_insertByCountDesc q _ ih

/-- The head of the descending sort (`most_common(1)[0]`) is an element of
maximal count. -/
theorem head_sortByCountDesc_max {α : Type} (l : List (α × Nat))
    (d : α × Nat) (h : (sortByCountDesc l).head? = some d) :
    d ∈ l ∧ ∀ q ∈ l, q.2 ≤ d.2 := by
  cases hs : sortByCountDesc l with
  | nil => rw [hs] at h; simp at h
  | cons x rest =>
    rw [hs] at h
    simp only [List.head?_cons, Option.some.injEq] at h
    subst h
    constructor
    · rw [← mem_sortByCountDesc x l, hs]
      exact List.mem_cons_self _ _
    · intro q hq
      rw [← mem_sortByCountDesc q l, hs] at hq
      have hsorted := sorted_sortByCountDesc l
      rw [hs, List.sorted_cons] at hsorted
      rcases List.mem_cons.mp hq with rfl | hq
      · exact le_refl _
      · exact hsorted.1 q hq

/-- C7 (confirmed): every topic kept by the topic–emotion aggregation has a
total emotion occurrence count of at least 2, reports that total (which is
the total of its full distribution), and its dominant emotion is one of
maximal frequency in the distribution. -/
theorem topic_emotion_retention (logs : List RawLog) (t : String)
    (info : TopicInfo) (h : (t, info) ∈ aggregateTopicEmotions logs) :
    2 ≤ info.count ∧
    info.count = Counter.total info.distribution ∧
    ∃ n, (info.dominant_emotion, n) ∈ info.distribution ∧
      ∀ q ∈ info.distribution, q.2 ≤ n := by
  simp only [aggregateTopicEmotions, List.mem_filterMap] at h
  obtain ⟨p, hp, hf⟩ := h
  by_cases hlt : Counter.total p.2 < 2
  · rw [if_pos hlt] at hf
    simp at hf
  · rw [if_neg hlt] at hf
    rw [Option.map_eq_some'] at hf
    obtain ⟨d, hd, he⟩ := hf
    have h1 : p.1 = t := congrArg Prod.fst he
    have h2 : (⟨d.1, Counter.total p.2, p.2⟩ : TopicInfo) = info :=
      congrArg Prod.snd he
    subst h1
    subst h2
    have hmax := head_sortByCountDesc_max p.2 d hd
    refine ⟨?_, rfl, d.2, hmax.1, hmax.2⟩
    show 2 ≤ Counter.total p.2
    omega

/-- Witness for C7: one entry with topic `work` and two emotion occurrences
is retained, with `happy` dominant. -/
theorem topic_emotion_retention_witness :
    ("work", (⟨"happy", 2, [("happy", 2)]⟩ : TopicInfo)) ∈
      aggregateTopicEmotions
        [⟨none, 0, some ["happy", "happy"], some ["work"], none⟩] ∧
    2 ≤ (⟨"happy", 2, [("happy", 2)]⟩ : TopicInfo).count :=
  ⟨by decide,
   (topic_emotion_retention
     [⟨none, 0, some ["happy", "happy"], some ["work"], none⟩]
     "work" ⟨"happy", 2, [("happy", 2)]⟩ (by decide)).1⟩

/-- The dict lookup of `_parse_result` only produces the five primary
categories. -/
theorem intentOfString_mem (s : String) :
    intentOfString s ∈
      [ConversationIntent.chat, .empathy, .knowledge, .deep_dive,
       .brainstorm] := by
  simp only [intentOfString]
  split_ifs <;> simp

/-- Python `max(scores, key=scores.get)` returns the start value or a list element. -/
theorem argmaxAux_mem (best : ConversationIntent × Nat)
    (l : List (ConversationIntent × Nat)) :
    argmaxAux best l = best ∨ argmaxAux best l ∈ l := by
  induction l generalizing best with
  | nil => left; rfl
  | cons p rest ih =>
    simp only [argmaxAux]
    rcases ih (if p.2 > best.2 then p else best) with h | h
    · rw [h]
      split_ifs with hc
      · right
        exact List.mem_cons_self _ _
      · left
        rfl
    · right
      exact List.mem_cons_of_mem _ h

/-- Unfolding equation of `fallbackClassify` on the concrete scores dict. -/
theorem fallbackClassify_eq (text : String) :
    fallbackClassify text =
      (let m := argmaxAux (ConversationIntent.chat, score .chat text)
        [(ConversationIntent.empathy, score .empathy text),
         (ConversationIntent.knowledge, score .knowledge text),
         (ConversationIntent.deep_dive, score .deep_dive text),
         (ConversationIntent.brainstorm, score .brainstorm text),
         (ConversationIntent.state, score .state text)]
      if m.2 = 0 then ⟨.chat, 3/10⟩
      else
        let total : ℚ := ((scoresList text).map (fun q => (q.2 : ℚ))).sum
        let confidence : ℚ := if 0 < total then (m.2 : ℚ) / total else 3/10
        ⟨m.1, min confidence (7/10)⟩) := rfl

/-- The keyword fallback only produces the five primary categories: `state`
(like `chat`) has no keyword list, so it can never strictly beat the running
maximum, and the zero-score case returns `chat`. -/
theorem fallbackClassify_intent_mem (text : String) :
    (fallbackClassify text).intent ∈
      [ConversationIntent.chat, .empathy, .knowledge, .deep_dive,
       .brainstorm] := by
  rw [fallbackClassify_eq]
  by_cases hz : (argmaxAux (ConversationIntent.chat, score .chat text)
      [(ConversationIntent.empathy, score .empathy text),
       (ConversationIntent.knowledge, score .knowledge text),
       (ConversationIntent.deep_dive, score .deep_dive text),
       (ConversationIntent.brainstorm, score .brainstorm text),
       (ConversationIntent.state, score .state text)]).2 = 0
  · show (if _ = 0 then (⟨.chat, 3/10⟩ : ClassificationResult) else _).intent ∈ _
    rw [if_pos hz]
    simp
  · show (if _ = 0 then (⟨.chat, 3/10⟩ : ClassificationResult) else _).intent ∈ _
    rw [if_neg hz]
    rcases argmaxAux_mem (ConversationIntent.chat, score .chat text)
        [(ConversationIntent.empathy, score .empathy text),
         (ConversationIntent.knowledge, score .knowledge text),
         (ConversationIntent.deep_dive, score .deep_dive text),
         (ConversationIntent.brainstorm, score .brainstorm text),
         (ConversationIntent.state, score .state text)] with h | h
    · rw [h]
      simp
    · simp only [List.mem_cons, List.not_mem_nil, or_false] at h
      rcases h with h | h | h | h | h
      · rw [h]; simp
      · rw [h]; simp
      · rw [h]; simp
      · rw [h]; simp
      · rw [h] at hz
        exact absurd rfl hz

/-- C8 (confirmed): for every input and every LLM outcome, `classify` never
returns the `state` intent — on both the LLM parse path and the keyword
fallback path the result is one of the five primary categories. -/
theorem classify_never_state (text : String) (llm : LLMJsonAttempt) :
    (classify text llm).intent ∈
      [ConversationIntent.chat, .empathy, .knowledge, .deep_dive,
       .brainstorm] := by
  cases llm with
  | unavailable => exact fallbackClassify_intent_mem text
  | failure => exact fallbackClassify_intent_mem text
  | success m =>
    simp only [classify]
    cases hm : m.lookup "intent" with
    | none =>
      simp only [parseResult, hm]
      exact intentOfString_mem _
    | some v =>
      cases v with
      | str s =>
        simp only [parseResult, hm]
        exact intentOfString_mem _
      | num q =>
        simp only [parseResult, hm]
        exact fallbackClassify_intent_mem text
      | jbool b =>
        simp only [parseResult, hm]
        exact fallbackClassify_intent_mem text
      | null =>
        simp only [parseResult, hm]
        exact fallbackClassify_intent_mem text
      | arr =>
        simp only [parseResult, hm]
        exact fallbackClassify_intent_mem text
      | obj =>
        simp only [parseResult, hm]
        exact fallbackClassify_intent_mem text

/-- C9 (confirmed): if 5 or more in-window entries contain a fatigue keyword,
the signal list contains a `fatigue_repetition` signal of `warning` severity;
with 4 or fewer such entries, no `fatigue_repetition` signal is emitted (for
every value of the trend and frequency-change inputs). -/
theorem fatigue_signal_threshold (logs : List RawLog)
    (trend freq : Option String) :
    (5 ≤ fatigueCount logs →
      ∃ s ∈ detectSignals logs trend freq,
        s.type = "fatigue_repetition" ∧ s.severity = "warning") ∧
    (fatigueCount logs ≤ 4 →
      ∀ s ∈ detectSignals logs trend freq, s.type ≠ "fatigue_repetition") := by
  constructor
  · intro h
    refine ⟨⟨"fatigue_repetition", "warning",
      "疲労に関する投稿が" ++ toString (fatigueCount logs) ++ "回（" ++
      toString recentDays ++ "日間）。慢性的な疲労の可能性"⟩, ?_, rfl, rfl⟩
    simp [detectSignals, h]
  · intro h s hs
    have h5 : ¬ 5 ≤ fatigueCount logs := by omega
    simp only [detectSignals, if_neg h5, List.nil_append, List.mem_append] at hs
    rcases hs with (hs | hs) | hs <;> split_ifs at hs <;> simp_all

/-- Witness for C9: five entries whose content contains `疲れ`. -/
theorem fatigue_signal_threshold_witness :
    5 ≤ fatigueCount
      (List.replicate 5 (⟨some "疲れた", 0, none, none, none⟩ : RawLog)) ∧
    ∃ s ∈ detectSignals
        (List.replicate 5 (⟨some "疲れた", 0, none, none, none⟩ : RawLog))
        none none,
      s.type = "fatigue_repetition" ∧ s.severity = "warning" :=
  ⟨by decide,
   (fatigue_signal_threshold
     (List.replicate 5 (⟨some "疲れた", 0, none, none, none⟩ : RawLog))
     none none).1 (by decide)⟩

/-- C10 (confirmed): for every input, the detected signal list's types form
a sublist (hence: each type at most once, and in the fixed order) of
`[fatigue_repetition, stress_increasing, negativity_increasing,
posting_decrease, state_dominant]`; every signal's severity is `warning`
exactly for `fatigue_repetition`/`stress_increasing` and `info` otherwise;
`stress_increasing` and `negativity_increasing` never co-occur; and the list
has length at most 4. -/
theorem signals_shape (logs : List RawLog) (trend freq : Option String) :
    ((detectSignals logs trend freq).map Signal.type).Sublist
      ["fatigue_repetition", "stress_increasing", "negativity_increasing",
       "posting_decrease", "state_dominant"] ∧
    (∀ s ∈ detectSignals logs trend freq,
      s.severity =
        if s.type = "fatigue_repetition" ∨ s.type = "stress_increasing"
        then "warning" else "info") ∧
    ¬("stress_increasing" ∈ (detectSignals logs trend freq).map Signal.type ∧
      "negativity_increasing" ∈
        (detectSignals logs trend freq).map Signal.type) ∧
    (detectSignals logs trend freq).length ≤ 4 := by
  simp only [detectSignals]
  split_ifs <;>
    refine ⟨?_, ?_, ?_, ?_⟩ <;>
    first
      | decide
      | simp_all

/-- Witness for C10's per-signal severity conjunct at a concrete input. -/
theorem signals_shape_witness :
    (⟨"posting_decrease", "info",
      "投稿頻度が減少傾向。無気力や回避の兆候の可能性"⟩ : Signal).severity =
      (if (⟨"posting_decrease", "info",
          "投稿頻度が減少傾向。無気力や回避の兆候の可能性"⟩ : Signal).type =
            "fatigue_repetition" ∨
          (⟨"posting_decrease", "info",
          "投稿頻度が減少傾向。無気力や回避の兆候の可能性"⟩ : Signal).type =
            "stress_increasing"
       then "warning" else "info") :=
  (signals_shape [] none (some "decreasing")).2.1
    ⟨"posting_decrease", "info", "投稿頻度が減少傾向。無気力や回避の兆候の可能性"⟩
    (by decide)

end Mindyard
